import Mathlib

/-!
Shallow embedding of the ticket-routing core of the grupo4 repository.

Sources embedded here:
* `src/proyecto/agents/decisor/main.py` — the orchestrator agent: desk registry
  `ESTADO_MESAS`, `_porcentaje`, `_disponible`, `_candidatas_por_nivel`,
  `_mesa_por_producto`, `asignar_mesa`, and the `/asignar` endpoint `asignar`.
* `src/proyecto/agents/capacidad/main.py` — the capacity agent: its own registry,
  `calcular_capacidad_mesa` and the `/actualizar` endpoint `actualizar_carga_mesa`.
* `src/proyecto/services/pipeline.py` — `ejecutar_pipeline`.

Modelling conventions: Python floats are modelled as rationals (ℚ); Python
exceptions (KeyError on a missing desk, IndexError on an empty list) are
modelled with `Except String`; the mutable module-level dict `ESTADO_MESAS` is
modelled as an explicit state value (a list of desks in insertion order, which
is the iteration order of a Python dict) threaded through the functions.
Python's stable `list.sort(key=...)` is modelled by `List.insertionSort` on the
key order, which is also stable and sorted, hence extensionally identical.
The decimal rendering of numbers inside reason strings is abstracted by Lean's
`toString` on ℚ; no claim depends on the digits of those renderings.
-/

namespace Protecta

/-- Python substring test helper: does the character list start with `aguja`? -/
def empiezaCon : List Char → List Char → Bool
  | [], _ => true
  | _ :: _, [] => false
  | c :: cs, d :: ds => c == d && empiezaCon cs ds

/-- Python substring test helper: does `aguja` occur contiguously in the list? -/
def apareceEn (aguja : List Char) : List Char → Bool
  | [] => aguja.isEmpty
  | c :: cs => empiezaCon aguja (c :: cs) || apareceEn aguja cs

/-- Python's `sub in texto` on strings (contiguous substring test). -/
def contiene (texto sub : String) : Bool :=
  apareceEn sub.toList texto.toList

/-- Python's `s.lower()` (character-wise lowercasing; the texts involved are
ASCII, where `Char.toLower` agrees with Python). -/
def minusculas (s : String) : String :=
  ⟨s.data.map Char.toLower⟩

/-- Python's `x or d` for an `Optional[str]` field (`None` and `""` are falsy). -/
def pyOrStr (x : Option String) (d : String) : String :=
  match x with
  | none => d
  | some s => if s == "" then d else s

/-- Python's `x or d` for an `Optional[float]` field (`None` and `0.0` are falsy). -/
def pyOrQ (x : Option ℚ) (d : ℚ) : ℚ :=
  match x with
  | none => d
  | some q => if q == 0 then d else q

/-- Python truthiness of an `Optional[bool]` field. -/
def verdadero (x : Option Bool) : Bool :=
  x.getD false

/-- Python truthiness of an `Optional[str]` field. -/
def truthyStr (x : Option String) : Bool :=
  match x with
  | none => false
  | some s => s != ""

/-- Python's `f"{x}"` for an `Optional[float]` value (`None` prints as `"None"`;
the decimal rendering of the number itself is abstracted by `toString` on ℚ). -/
def strOptQ : Option ℚ → String
  | none => "None"
  | some q => toString q

/-- Python's `f"{x}"` for an `Optional[str]` value (`None` prints as `"None"`). -/
def strOptStr : Option String → String
  | none => "None"
  | some s => s

/-- Python's `round` (banker's rounding: halves go to the even integer). -/
def pyround (q : ℚ) : ℤ :=
  if q - (⌊q⌋ : ℚ) = 1/2 then (if ⌊q⌋ % 2 = 0 then ⌊q⌋ else ⌊q⌋ + 1)
  else ⌊q + 1/2⌋

/-- Python's `round(q, 1)`. -/
def round1 (q : ℚ) : ℚ :=
  (pyround (q * 10) : ℚ) / 10

/-- One desk of the orchestrator's registry `ESTADO_MESAS`
(decisor/main.py, lines 32-44): name, tier, specialty, capacity, load. -/
structure Mesa where
  nombre : String
  nivel : String
  especialidad : String
  max : ℕ
  actual : ℕ
deriving DecidableEq

/-- The registry state: desks in dict insertion order. -/
abbrev Estado := List Mesa

/-- `ESTADO_MESAS` of decisor/main.py (initial state, insertion order). -/
def ESTADO_MESAS : Estado :=
  [⟨"Service Desk 1", "N1", "Soporte general", 20, 12⟩,
   ⟨"Service Desk 2", "N1", "Soporte general", 20, 8⟩,
   ⟨"Squad - Mesa Ongoing", "N2", "Escalamiento", 15, 10⟩,
   ⟨"soportedigital", "N3", "Ecommerce/Digital", 10, 5⟩,
   ⟨"soporteapp", "N3", "Facturación/Apps", 10, 7⟩,
   ⟨"Squad - Mesa Vida Ley", "N3", "Vida Ley", 8, 3⟩,
   ⟨"Squad - Mesa SCTR", "N3", "SCTR", 8, 6⟩,
   ⟨"Squad - Mesa SOAT", "N3", "SOAT", 8, 4⟩]

/-- `_porcentaje` (decisor/main.py lines 53-55): `actual / max * 100`.
ℚ stands in for the Python float; the ZeroDivisionError raised when
`max == 0` is tracked separately by `porcentajeChecked`. -/
def porcentaje (m : Mesa) : ℚ :=
  ((m.actual : ℚ) / (m.max : ℚ)) * 100

/-- `_porcentaje` with Python's ZeroDivisionError made explicit:
`none` exactly when the divisor `max` is zero. -/
def porcentajeChecked (m : Mesa) : Option ℚ :=
  if m.max = 0 then none else some (((m.actual : ℚ) / (m.max : ℚ)) * 100)

/-- `_disponible` (decisor/main.py lines 57-58): utilization strictly below 90. -/
def disponible (m : Mesa) : Bool :=
  porcentaje m < 90

/-- The dict lookup `ESTADO_MESAS[nombre]` (first — and, keys being unique,
only — entry with that name). -/
def lookupMesa (s : Estado) (nombre : String) : Option Mesa :=
  s.find? (fun m => m.nombre == nombre)

/-- The sort key order of `_candidatas_por_nivel`: ascending utilization. -/
def cargaMenor (a b : Mesa) : Prop :=
  porcentaje a ≤ porcentaje b

instance : DecidableRel cargaMenor :=
  fun a b => inferInstanceAs (Decidable (porcentaje a ≤ porcentaje b))

instance : IsTotal Mesa cargaMenor :=
  ⟨fun _ _ => le_total _ _⟩

instance : IsTrans Mesa cargaMenor :=
  ⟨fun _ _ _ => le_trans⟩

/-- `_candidatas_por_nivel` (decisor/main.py lines 60-64): the desks of the
requested tier, stably sorted by ascending utilization. -/
def candidatas_por_nivel (s : Estado) (nivel : String) : List Mesa :=
  List.insertionSort cargaMenor (s.filter (fun m => m.nivel == nivel))

/-- `_mesa_por_producto` (decisor/main.py lines 66-80). The third condition
mirrors Python operator precedence on line 74: `"soat" in prod or
("soat" in tipo and "ecommerce" in tipo)`. -/
def mesa_por_producto (producto tipo_sd : String) : Option String :=
  let prod := minusculas producto
  let tipo := minusculas tipo_sd
  if contiene prod "vida ley" || contiene tipo "vida ley" then
    some "Squad - Mesa Vida Ley"
  else if contiene prod "sctr" || contiene tipo "sctr" then
    some "Squad - Mesa SCTR"
  else if contiene prod "soat" || (contiene tipo "soat" && contiene tipo "ecommerce") then
    some "Squad - Mesa SOAT"
  else if contiene tipo "ecommerce" || contiene tipo "digital" || contiene tipo "web" then
    some "soportedigital"
  else if contiene tipo "factura" || contiene tipo "planilla" || contiene tipo "conciliacion" then
    some "soporteapp"
  else
    none

/-- The dict returned by `asignar_mesa` (decisor/main.py). -/
structure Decision where
  mesa : String
  nivel : String
  en_cola : Bool
  razon : String
deriving DecidableEq

/-- The tier list of the normal case (decisor/main.py line 120). -/
def niveles_candidatos (nivel_recomendado : String) : List String :=
  if nivel_recomendado == "N1" || nivel_recomendado == "baja" || nivel_recomendado == "media"
  then ["N1"] else ["N2", "N1"]

/-- The nested `for nivel in niveles: for mesa in _candidatas_por_nivel(nivel):
if _disponible(mesa): return` loops: first tier owning an available desk,
together with that desk. -/
def buscar_en_niveles (s : Estado) : List String → Option (String × Mesa)
  | [] => none
  | n :: rest =>
    match (candidatas_por_nivel s n).find? (fun m => disponible m) with
    | some m => some (n, m)
    | none => buscar_en_niveles s rest

/-- The N2 loop inside the N3 branch (decisor/main.py lines 114-117). -/
def intento_n2 (s : Estado) : Option Decision :=
  match (candidatas_por_nivel s "N2").find? (fun m => disponible m) with
  | some m => some ⟨m.nombre, "N2", false, "N3 saturada → escalado a N2"⟩
  | none => none

/-- The N3 branch of `asignar_mesa` (decisor/main.py lines 107-117).
`Except.error` models the KeyError raised by `_disponible(mesa_n3)` when the
rule names a desk absent from the registry; `.ok none` means the branch fell
through to the normal case. -/
def intento_n3 (s : Estado) (nivel_recomendado complejidad tipo_atencion_sd producto : String) :
    Except String (Option Decision) :=
  if nivel_recomendado == "N3" && complejidad == "muy_alta" then
    match mesa_por_producto producto tipo_atencion_sd with
    | some nombre =>
      match lookupMesa s nombre with
      | none => .error ("KeyError: " ++ nombre)
      | some m =>
        if disponible m then
          .ok (some ⟨nombre, "N3", false, "Complejidad MUY_ALTA → N3 (" ++ nombre ++ ")"⟩)
        else
          .ok (intento_n2 s)
    | none => .ok (intento_n2 s)
  else
    .ok none

/-- The normal case and the saturation fallback of `asignar_mesa`
(decisor/main.py lines 119-131). `Except.error` models the IndexError of
`_candidatas_por_nivel("N1")[0]` on an empty list. -/
def caso_normal (s : Estado) (nivel_recomendado complejidad : String) :
    Except String Decision :=
  match buscar_en_niveles s (niveles_candidatos nivel_recomendado) with
  | some (nivel, m) =>
    .ok ⟨m.nombre, nivel, false,
         "Complejidad " ++ complejidad ++ " → " ++ nivel ++ " (" ++ m.nombre ++ ", carga "
           ++ toString (round1 (porcentaje m)) ++ "%)"⟩
  | none =>
    match candidatas_por_nivel s "N1" with
    | [] => .error "IndexError: no hay mesas N1"
    | m :: _ => .ok ⟨m.nombre, "N1", true, "Todas las mesas N1/N2 saturadas → en cola de espera"⟩

/-- `asignar_mesa` (decisor/main.py lines 83-131). -/
def asignar_mesa (s : Estado) (nivel_recomendado complejidad tipo_atencion_sd producto : String)
    (via_historico : Bool) : Except String Decision :=
  if via_historico then
    match buscar_en_niveles s ["N1", "N2"] with
    | some (nivel, m) =>
      .ok ⟨m.nombre, nivel, false, "Histórico detectado → forzado a " ++ nivel⟩
    | none =>
      .ok ⟨"Service Desk 1", "N1", true, "Histórico: N1/N2 saturados → cola"⟩
  else
    match intento_n3 s nivel_recomendado complejidad tipo_atencion_sd producto with
    | .error e => .error e
    | .ok (some d) => .ok d
    | .ok none => caso_normal s nivel_recomendado complejidad

/-- The request body `SolicitudOrquestador` (decisor/main.py lines 137-156),
with the pydantic `Optional` fields and their defaults. -/
structure Solicitud where
  ticket_id : String
  tipo_incidencia : String := ""
  tipo_atencion_sd : String := ""
  area : Option String := some ""
  producto : Option String := some ""
  resumen : Option String := some ""
  informador : Option String := some ""
  urgencia_detectada : Option String := some "media"
  tiempo_estimado_horas : Option ℚ := none
  categoria_tiempo : Option String := some ""
  complejidad : Option String := some "media"
  score_complejidad : Option ℚ := some 50
  nivel_recomendado : Option String := some "N1"
  via_historico : Option Bool := some false
  mesa_historico : Option String := none
  resolucion_referencia : Option String := none
deriving DecidableEq

/-- The response body `RespuestaOrquestador` (decisor/main.py lines 158-170). -/
structure Respuesta where
  ticket_id : String
  mesa_asignada : String
  nivel_asignado : String
  en_cola : Bool
  complejidad : String
  score_complejidad : ℚ
  tiempo_estimado_horas : Option ℚ
  categoria_tiempo : Option String
  via_historico : Bool
  resolucion_referencia : Option String
  razonamiento : String
  timestamp : String
deriving DecidableEq

/-- One entry of the waiting queue `_COLA` (decisor/main.py lines 233-239). -/
structure EntradaCola where
  ticket_id : String
  mesa_objetivo : String
  timestamp : String
deriving DecidableEq

/-- The waiting queue `_COLA`, in append order. -/
abbrev Cola := List EntradaCola

/-- The `min(actual + 1, max)` load increment of the `/asignar` endpoint
(decisor/main.py lines 227-231). -/
def incrementar_carga (m : Mesa) : Mesa :=
  { m with actual := min (m.actual + 1) m.max }

/-- The first half of the `/asignar` endpoint (decisor/main.py lines 206-224):
either use the historically suggested desk directly (when `via_historico` and
`mesa_historico` are both truthy), or call `asignar_mesa`. Produces
`(mesa_final, nivel_final, en_cola, razon)`; `Except.error` models the KeyError
raised by `_disponible` when `mesa_historico` is not a registered desk
(the endpoint turns it into an HTTP 500). -/
def decidir (s : Estado) (sol : Solicitud) : Except String (String × String × Bool × String) :=
  if verdadero sol.via_historico && truthyStr sol.mesa_historico then
    let mesa_final := sol.mesa_historico.getD ""
    let nivel_final := ((lookupMesa s mesa_final).map Mesa.nivel).getD "N1"
    match lookupMesa s mesa_final with
    | none => .error ("KeyError: " ++ mesa_final)
    | some m =>
      .ok (mesa_final, nivel_final, !(disponible m), "Histórico → directamente a " ++ mesa_final)
  else
    (asignar_mesa s (pyOrStr sol.nivel_recomendado "N1") (pyOrStr sol.complejidad "media")
        sol.tipo_atencion_sd (pyOrStr sol.producto "") (verdadero sol.via_historico)).map
      (fun d => (d.mesa, d.nivel, d.en_cola, d.razon))

/-- The `razonamiento` field of the endpoint response
(decisor/main.py lines 252-263). -/
def razonamiento_respuesta (sol : Solicitud) (mesa_final nivel_final razon : String) : String :=
  if verdadero sol.via_historico && truthyStr sol.resolucion_referencia then
    "Ticket similar en histórico → Asignar a " ++ nivel_final ++ " (" ++ mesa_final ++ ") | "
      ++ "Cómo se resolvió antes: " ++ strOptStr sol.resolucion_referencia
  else
    "Complejidad: " ++ pyOrStr sol.complejidad "media" ++ " (score="
      ++ toString (pyOrQ sol.score_complejidad 50) ++ ") | "
      ++ "Tiempo est.: " ++ strOptQ sol.tiempo_estimado_horas ++ "h ("
      ++ strOptStr sol.categoria_tiempo ++ ") | " ++ razon

/-- The `/asignar` endpoint (decisor/main.py lines 200-268): decide the desk,
apply the clamped load increment when the ticket is not queued, append one
queue entry when it is, and build the response. The wall-clock timestamp is
passed in as `ts`. -/
def asignar (s : Estado) (cola : Cola) (sol : Solicitud) (ts : String) :
    Except String (Respuesta × Estado × Cola) :=
  match decidir s sol with
  | .error e => .error e
  | .ok (mesa_final, nivel_final, en_cola, razon) =>
    let s' :=
      if (lookupMesa s mesa_final).isSome && !en_cola then
        s.map (fun m => if m.nombre == mesa_final then incrementar_carga m else m)
      else s
    let cola' := if en_cola then cola ++ [⟨sol.ticket_id, mesa_final, ts⟩] else cola
    .ok ({ ticket_id := sol.ticket_id
           mesa_asignada := mesa_final
           nivel_asignado := nivel_final
           en_cola := en_cola
           complejidad := pyOrStr sol.complejidad "media"
           score_complejidad := pyOrQ sol.score_complejidad 50
           tiempo_estimado_horas := sol.tiempo_estimado_horas
           categoria_tiempo := sol.categoria_tiempo
           via_historico := verdadero sol.via_historico
           resolucion_referencia := sol.resolucion_referencia
           razonamiento := razonamiento_respuesta sol mesa_final nivel_final razon
           timestamp := ts }, s', cola')

/-- Projection: the assigned desk of a routing call, `none` on HTTP 500. -/
def mesaDe (x : Except String (Respuesta × Estado × Cola)) : Option String :=
  x.toOption.map (fun r => r.1.mesa_asignada)

/-- Projection: the assigned tier of a routing call, `none` on HTTP 500. -/
def nivelDe (x : Except String (Respuesta × Estado × Cola)) : Option String :=
  x.toOption.map (fun r => r.1.nivel_asignado)

/-- Projection: the queued flag of a routing call, `none` on HTTP 500. -/
def enColaDe (x : Except String (Respuesta × Estado × Cola)) : Option Bool :=
  x.toOption.map (fun r => r.1.en_cola)

/-- Projection: the post-call registry state, `none` on HTTP 500. -/
def estadoDe (x : Except String (Respuesta × Estado × Cola)) : Option Estado :=
  x.toOption.map (fun r => r.2.1)

/-- Projection: the post-call waiting queue, `none` on HTTP 500. -/
def colaDe (x : Except String (Respuesta × Estado × Cola)) : Option Cola :=
  x.toOption.map (fun r => r.2.2)

/-- One desk of the capacity agent's registry (capacidad/main.py lines 49-85). -/
structure MesaCap where
  mesa : String
  especialidad : String
  max_tickets : ℕ
  carga_actual : ℤ
deriving DecidableEq

/-- The capacity agent's `ESTADO_MESAS` (capacidad/main.py lines 49-85). -/
def ESTADO_MESAS_CAPACIDAD : List MesaCap :=
  [⟨"Service Desk 1", "N1 - Soporte General", 20, 12⟩,
   ⟨"Service Desk 2", "N1 - Soporte General", 20, 8⟩,
   ⟨"Squad - Mesa Ongoing", "N2 - Soporte Avanzado", 15, 10⟩,
   ⟨"soportedigital", "N3 - Digital y E-commerce", 10, 5⟩,
   ⟨"soporteapp", "N3 - Aplicativos y Facturación", 10, 4⟩,
   ⟨"Squad - Mesa Vida Ley", "N3 - Producto Vida Ley", 8, 3⟩,
   ⟨"Squad - Mesa SCTR", "N3 - Producto SCTR", 8, 2⟩]

/-- The utilization computed by `calcular_capacidad_mesa`
(capacidad/main.py line 116). -/
def cap_porcentaje (m : MesaCap) : ℚ :=
  ((m.carga_actual : ℚ) / (m.max_tickets : ℚ)) * 100

/-- The `disponible` field of `calcular_capacidad_mesa`
(capacidad/main.py line 124): utilization strictly below 90. -/
def cap_disponible (m : MesaCap) : Bool :=
  cap_porcentaje m < 90

/-- The `/actualizar/{mesa_id}` endpoint (capacidad/main.py lines 211-223),
on the targeted desk: `carga_actual += incremento`, with no clamping. -/
def actualizar_carga_mesa (m : MesaCap) (incremento : ℤ) : MesaCap :=
  { m with carga_actual := m.carga_actual + incremento }

/-- The JSON consumed from the Historical agent (pipeline.py lines 93-98). -/
structure HistResp where
  encontrado : Bool
  mesa_sugerida : Option String
  nivel_sugerido : Option String
  razonamiento : String
  resolucion_referencia : Option String
deriving DecidableEq

/-- The JSON consumed from the Estimator agent (pipeline.py lines 120-123). -/
structure EstResp where
  tiempo_estimado_horas : Option ℚ
  categoria_tiempo : String
  factores_aplicados : List String
deriving DecidableEq

/-- The JSON consumed from the Complexity agent (pipeline.py lines 146-150). -/
structure CompResp where
  complejidad : String
  score : ℚ
  nivel_recomendado : String
  recomendacion : String
deriving DecidableEq

/-- The JSON consumed from the Orchestrator agent (pipeline.py lines 177-185,
194-198). -/
structure OrqResp where
  mesa_asignada : String
  nivel_asignado : String
  en_cola : Bool
  razonamiento : String
deriving DecidableEq

/-- The result dict of `ejecutar_pipeline` (pipeline.py lines 194-215); the
pass-through ticket fields that the pipeline merely echoes are omitted. -/
structure PipelineSalida where
  ticket_id : String
  mesa_asignada : String
  nivel_asignado : String
  en_cola : Bool
  complejidad : String
  score_complejidad : ℚ
  tiempo_estimado_horas : Option ℚ
  categoria_tiempo : String
  via_historico : Bool
  razonamiento : String
  timestamp : String
deriving DecidableEq

/-- Step 1 of the pipeline (pipeline.py lines 75-101): `via_historico` after
the try/except (`False` on collaborator failure). -/
def via_historico_de (hist : Except String HistResp) : Bool :=
  match hist with
  | .ok h => h.encontrado
  | .error _ => false

/-- Step 1 of the pipeline: `hist_razon` after the try/except (the verbatim
substitution message on collaborator failure). -/
def hist_razon_de (hist : Except String HistResp) : String :=
  match hist with
  | .ok h => h.razonamiento
  | .error exc => "Histórico no disponible: " ++ exc

/-- Step 2 of the pipeline (pipeline.py lines 103-125): `tiempo_horas` after
the try/except (`None` on collaborator failure). -/
def tiempo_de (est : Except String EstResp) : Option ℚ :=
  match est with
  | .ok e => e.tiempo_estimado_horas
  | .error _ => none

/-- Step 2 of the pipeline: `categoria_tpo` after the try/except
(`""` on collaborator failure). -/
def categoria_de (est : Except String EstResp) : String :=
  match est with
  | .ok e => e.categoria_tiempo
  | .error _ => ""

/-- Step 2 of the pipeline: `factores_est` after the try/except (the verbatim
substitution message on collaborator failure; the source never reads this
variable again, so the message is dropped). -/
def factores_de (est : Except String EstResp) : List String :=
  match est with
  | .ok e => e.factores_aplicados
  | .error exc => ["Estimador no disponible: " ++ exc]

/-- Step 3 of the pipeline (pipeline.py lines 127-152): `complejidad` after
the try/except (`"media"` on collaborator failure). -/
def complejidad_de (comp : Except String CompResp) : String :=
  match comp with
  | .ok c => c.complejidad
  | .error _ => "media"

/-- Step 3 of the pipeline: `score_comp` after the try/except
(`50.0` on collaborator failure). -/
def score_de (comp : Except String CompResp) : ℚ :=
  match comp with
  | .ok c => c.score
  | .error _ => 50

/-- Step 3 of the pipeline: `nivel_rec` after the try/except
(`"N1"` on collaborator failure). -/
def nivel_rec_de (comp : Except String CompResp) : String :=
  match comp with
  | .ok c => c.nivel_recomendado
  | .error _ => "N1"

/-- Step 3 of the pipeline: `recom_comp` after the try/except (the verbatim
substitution message on collaborator failure; the source never reads this
variable again, so the message is dropped). -/
def recom_de (comp : Except String CompResp) : String :=
  match comp with
  | .ok c => c.recomendacion
  | .error exc => "Complejidad no disponible: " ++ exc

/-- Step 4 of the pipeline (pipeline.py lines 154-185): the orchestrator
response `o` after the try/except (the hard-coded fallback dict on failure). -/
def orq_de (orq : Except String OrqResp) : OrqResp :=
  match orq with
  | .ok o => o
  | .error exc => ⟨"Service Desk 1", "N1", false, "Orquestador no disponible: " ++ exc⟩

/-- The first segment of the pipeline trace (pipeline.py line 188). -/
def seg_historico (hist_razon : String) : String :=
  "Histórico: " ++ (if hist_razon == "" then "sin antecedentes" else hist_razon)

/-- The second segment of the pipeline trace (pipeline.py line 189). -/
def seg_estimado (tiempo : Option ℚ) (categoria : String) : String :=
  "Estimado: " ++ strOptQ tiempo ++ "h (" ++ categoria ++ ")"

/-- The third segment of the pipeline trace (pipeline.py line 190). -/
def seg_complejidad (complejidad : String) (score : ℚ) : String :=
  "Complejidad: " ++ complejidad ++ " (score=" ++ toString score ++ ")"

/-- `ejecutar_pipeline` (pipeline.py lines 44-215). Each collaborator call is
modelled as an oracle `Except String X`: `.ok` is a successful HTTP response,
`.error exc` a raised exception with message `exc`. (In the source the
orchestrator request is built from the values extracted in steps 1-3; its
response is an independent input here.) -/
def ejecutar_pipeline (ticket_id : String) (hist : Except String HistResp)
    (est : Except String EstResp) (comp : Except String CompResp)
    (orq : Except String OrqResp) (ts : String) : PipelineSalida :=
  let o := orq_de orq
  { ticket_id := ticket_id
    mesa_asignada := o.mesa_asignada
    nivel_asignado := o.nivel_asignado
    en_cola := o.en_cola
    complejidad := complejidad_de comp
    score_complejidad := score_de comp
    tiempo_estimado_horas := tiempo_de est
    categoria_tiempo := categoria_de est
    via_historico := via_historico_de hist
    razonamiento :=
      "Histórico: " ++ (if hist_razon_de hist == "" then "sin antecedentes" else hist_razon_de hist)
        ++ " | " ++ "Estimado: " ++ strOptQ (tiempo_de est) ++ "h (" ++ categoria_de est
        ++ ") | " ++ "Complejidad: " ++ complejidad_de comp ++ " (score="
        ++ toString (score_de comp) ++ ") | " ++ o.razonamiento
    timestamp := ts }

/-! ### Helper lemmas -/

theorem mem_candidatas {s : Estado} {niv : String} {m : Mesa} :
    m ∈ candidatas_por_nivel s niv ↔ m ∈ s ∧ m.nivel = niv := by
  unfold candidatas_por_nivel
  rw [List.mem_insertionSort, List.mem_filter]
  simp

theorem sorted_candidatas (s : Estado) (niv : String) :
    List.Sorted cargaMenor (candidatas_por_nivel s niv) :=
  List.sorted_insertionSort cargaMenor _

theorem find_disponible_minimal {s : Estado} {niv : String} {m : Mesa}
    (h : (candidatas_por_nivel s niv).find? (fun x => disponible x) = some m) :
    m ∈ s ∧ m.nivel = niv ∧ disponible m = true ∧
      ∀ m' ∈ s, m'.nivel = niv → disponible m' = true → porcentaje m ≤ porcentaje m' := by
  have hdisp : disponible m = true := List.find?_some h
  have hmem : m ∈ s ∧ m.nivel = niv := mem_candidatas.mp (List.mem_of_find?_eq_some h)
  refine ⟨hmem.1, hmem.2, hdisp, ?_⟩
  intro m' hm' hniv' hdisp'
  obtain ⟨-, as, bs, hsplit, hfail⟩ := List.find?_eq_some.mp h
  have hsort : List.Sorted cargaMenor (as ++ m :: bs) := hsplit ▸ sorted_candidatas s niv
  have hm'mem : m' ∈ as ++ m :: bs := hsplit ▸ mem_candidatas.mpr ⟨hm', hniv'⟩
  rcases List.mem_append.mp hm'mem with hin | hin
  · have := hfail m' hin
    simp [hdisp'] at this
  · rcases List.mem_cons.mp hin with rfl | hin
    · exact le_refl _
    · exact List.rel_of_pairwise_cons ((List.pairwise_append.mp hsort).2.1) hin

theorem head_candidatas_minimal {s : Estado} {niv : String} {m : Mesa} {rest : List Mesa}
    (h : candidatas_por_nivel s niv = m :: rest) :
    m ∈ s ∧ m.nivel = niv ∧
      ∀ m' ∈ s, m'.nivel = niv → porcentaje m ≤ porcentaje m' := by
  have hmem : m ∈ s ∧ m.nivel = niv := mem_candidatas.mp (h ▸ List.mem_cons_self m rest)
  refine ⟨hmem.1, hmem.2, ?_⟩
  intro m' hm' hniv'
  have hsort : List.Sorted cargaMenor (m :: rest) := h ▸ sorted_candidatas s niv
  have hm'mem : m' ∈ m :: rest := h ▸ mem_candidatas.mpr ⟨hm', hniv'⟩
  rcases List.mem_cons.mp hm'mem with rfl | hin
  · exact le_refl _
  · exact List.rel_of_pairwise_cons hsort hin

theorem find_none_de_saturacion {s : Estado} {niv : String}
    (h : ∀ m ∈ s, m.nivel = niv → disponible m = false) :
    (candidatas_por_nivel s niv).find? (fun x => disponible x) = none := by
  rw [List.find?_eq_none]
  intro m hm
  obtain ⟨hms, hniv⟩ := mem_candidatas.mp hm
  simp [h m hms hniv]

theorem buscar_mem {s : Estado} :
    ∀ {niveles : List String} {n : String} {m : Mesa},
      buscar_en_niveles s niveles = some (n, m) →
        n ∈ niveles ∧ (candidatas_por_nivel s n).find? (fun x => disponible x) = some m := by
  intro niveles
  induction niveles with
  | nil => intro n m h; simp [buscar_en_niveles] at h
  | cons hd tl ih =>
    intro n m h
    unfold buscar_en_niveles at h
    cases hfind : (candidatas_por_nivel s hd).find? (fun x => disponible x) with
    | some m0 =>
      rw [hfind] at h
      obtain ⟨rfl, rfl⟩ : hd = n ∧ m0 = m := by
        simpa using h
      exact ⟨List.mem_cons_self _ _, hfind⟩
    | none =>
      rw [hfind] at h
      obtain ⟨hmem, hf⟩ := ih h
      exact ⟨List.mem_cons_of_mem _ hmem, hf⟩

theorem append_ne_vacia (a b : String) (h : a ≠ "") : a ++ b ≠ "" := by
  intro hc
  apply h
  have hdata : a.data ++ b.data = [] := by
    have := congrArg String.data hc
    simpa using this
  have : a.data = [] := (List.append_eq_nil.mp hdata).1
  cases a
  simp_all

theorem empiezaCon_self_append (n rest : List Char) : empiezaCon n (n ++ rest) = true := by
  induction n with
  | nil => rfl
  | cons c cs ih => simp [empiezaCon, ih]

theorem apareceEn_de_empiezaCon {n l : List Char} (h : empiezaCon n l = true) :
    apareceEn n l = true := by
  cases l with
  | nil =>
    cases n with
    | nil => rfl
    | cons c cs => simp [empiezaCon] at h
  | cons c cs => simp [apareceEn, h]

theorem apareceEn_en_medio (pre n post : List Char) :
    apareceEn n (pre ++ (n ++ post)) = true := by
  induction pre with
  | nil => exact apareceEn_de_empiezaCon (empiezaCon_self_append n post)
  | cons c cs ih => simp [apareceEn, ih]

theorem contiene_en_medio (a b c : String) : contiene (a ++ b ++ c) b = true := by
  unfold contiene
  have hdata : (a ++ b ++ c).toList = a.toList ++ (b.toList ++ c.toList) := by
    simp [String.toList]
  rw [hdata]
  exact apareceEn_en_medio a.toList b.toList c.toList

theorem tail_no_soat (t : String) :
    (if contiene (minusculas t) "ecommerce" || contiene (minusculas t) "digital"
          || contiene (minusculas t) "web" then
       some "soportedigital"
     else if contiene (minusculas t) "factura" || contiene (minusculas t) "planilla"
          || contiene (minusculas t) "conciliacion" then
       some "soporteapp"
     else none) ≠ some "Squad - Mesa SOAT" := by
  split
  · decide
  · split
    · decide
    · decide

/-! ### Claim C2 -/

/-- C2, counterexample: `_mesa_por_producto` returns the SOAT desk for the
product text "soat" alone, with no ecommerce context anywhere, so the rule is
not "soat together with ecommerce"; Python operator precedence attaches the
ecommerce conjunct only to the attention-type test. -/
theorem soat_sin_ecommerce_contraejemplo :
    mesa_por_producto "soat" "" = some "Squad - Mesa SOAT" ∧
    contiene (minusculas "soat") "ecommerce" = false ∧
    contiene (minusculas "") "ecommerce" = false := by
  decide

/-- C2, amended: the rules are evaluated in the listed fixed order with
case-insensitive substring matching and the first match wins, but the SOAT desk
is returned when "soat" occurs in the product text, or when "soat" and
"ecommerce" both occur in the attention-type text. -/
theorem regla_soat_caracterizacion (p t : String) :
    (mesa_por_producto p t = some "Squad - Mesa SOAT" ↔
      (contiene (minusculas p) "vida ley" = false ∧ contiene (minusculas t) "vida ley" = false ∧
       contiene (minusculas p) "sctr" = false ∧ contiene (minusculas t) "sctr" = false ∧
       (contiene (minusculas p) "soat" = true ∨
        (contiene (minusculas t) "soat" = true ∧ contiene (minusculas t) "ecommerce" = true)))) ∧
    ((contiene (minusculas p) "vida ley" = true ∨ contiene (minusculas t) "vida ley" = true) →
      mesa_por_producto p t = some "Squad - Mesa Vida Ley") ∧
    (contiene (minusculas p) "vida ley" = false → contiene (minusculas t) "vida ley" = false →
      (contiene (minusculas p) "sctr" = true ∨ contiene (minusculas t) "sctr" = true) →
      mesa_por_producto p t = some "Squad - Mesa SCTR") := by
  have htail := tail_no_soat t
  unfold mesa_por_producto
  cases h1 : contiene (minusculas p) "vida ley" <;>
    cases h2 : contiene (minusculas t) "vida ley" <;>
      cases h3 : contiene (minusculas p) "sctr" <;>
        cases h4 : contiene (minusculas t) "sctr" <;>
          cases h5 : contiene (minusculas p) "soat" <;>
            cases h6 : contiene (minusculas t) "soat" <;>
              cases h7 : contiene (minusculas t) "ecommerce" <;>
                simp_all

/-- C2, witness: the first two rules fire on their keywords, at concrete
inputs, through `regla_soat_caracterizacion`. -/
theorem regla_soat_testigo :
    mesa_por_producto "vida ley" "" = some "Squad - Mesa Vida Ley" ∧
    mesa_por_producto "" "sctr" = some "Squad - Mesa SCTR" :=
  ⟨(regla_soat_caracterizacion "vida ley" "").2.1 (Or.inl (by decide)),
   (regla_soat_caracterizacion "" "sctr").2.2 (by decide) (by decide) (Or.inr (by decide))⟩

/-! ### Claim C3 -/

/-- C3, counterexample: the capacity agent's `/actualizar` endpoint does not
clamp: nine unit increments applied to the registered "Service Desk 1"
(load 12, capacity 20) drive the load to 21, strictly above `max_tickets`. -/
theorem actualizar_carga_excede_max :
    ESTADO_MESAS_CAPACIDAD.head? = some ⟨"Service Desk 1", "N1 - Soporte General", 20, 12⟩ ∧
    ((fun m => actualizar_carga_mesa m 1)^[9]
        ⟨"Service Desk 1", "N1 - Soporte General", 20, 12⟩).carga_actual = 21 ∧
    (((fun m => actualizar_carga_mesa m 1)^[9]
        ⟨"Service Desk 1", "N1 - Soporte General", 20, 12⟩).max_tickets : ℤ) <
      ((fun m => actualizar_carga_mesa m 1)^[9]
        ⟨"Service Desk 1", "N1 - Soporte General", 20, 12⟩).carga_actual := by
  decide

/-- C3, amended: the orchestrator's per-assignment increment
(`min(actual + 1, max)`) does satisfy the claim: starting from a load within
capacity, the load after N increments is `min(L + N, max)`, never exceeds
`max`, and utilization equals `min(L + N, max) / max * 100` and never
decreases. The capacity agent's `/actualizar` endpoint, by contrast, adds the
raw increment with no clamping (see the counterexample). -/
theorem incremento_decisor_acotado (m : Mesa) (N : ℕ) (h : m.actual ≤ m.max) :
    (incrementar_carga^[N] m).actual = min (m.actual + N) m.max ∧
    (incrementar_carga^[N] m).actual ≤ m.max ∧
    (incrementar_carga^[N] m).max = m.max ∧
    porcentaje (incrementar_carga^[N] m)
      = ((min (m.actual + N) m.max : ℕ) : ℚ) / (m.max : ℚ) * 100 ∧
    porcentaje m ≤ porcentaje (incrementar_carga^[N] m) := by
  have key : ∀ k : ℕ, (incrementar_carga^[k] m).actual = min (m.actual + k) m.max ∧
      (incrementar_carga^[k] m).max = m.max := by
    intro k
    induction k with
    | zero => simpa using Nat.min_eq_left h
    | succ n ih =>
      have h1 : (incrementar_carga (incrementar_carga^[n] m)).actual
          = min ((incrementar_carga^[n] m).actual + 1) (incrementar_carga^[n] m).max := rfl
      have h2 : (incrementar_carga (incrementar_carga^[n] m)).max
          = (incrementar_carga^[n] m).max := rfl
      rw [Function.iterate_succ_apply']
      refine ⟨?_, by rw [h2, ih.2]⟩
      rw [h1, ih.1, ih.2]
      omega
  obtain ⟨hact, hmax⟩ := key N
  have hle : (incrementar_carga^[N] m).actual ≤ m.max := by omega
  have hpor : porcentaje (incrementar_carga^[N] m)
      = ((min (m.actual + N) m.max : ℕ) : ℚ) / (m.max : ℚ) * 100 := by
    unfold porcentaje
    rw [hact, hmax]
  refine ⟨hact, hle, hmax, hpor, ?_⟩
  rw [hpor]
  unfold porcentaje
  rcases Nat.eq_zero_or_pos m.max with hz | hpos
  · have : m.actual = 0 := by omega
    simp [hz, this]
  · have hnum : (m.actual : ℚ) ≤ ((min (m.actual + N) m.max : ℕ) : ℚ) := by
      have : m.actual ≤ min (m.actual + N) m.max := le_min (Nat.le_add_right _ _) h
      exact_mod_cast this
    have hden : (0 : ℚ) < (m.max : ℚ) := by exact_mod_cast hpos
    have := (div_le_div_iff_of_pos_right hden).mpr hnum
    exact mul_le_mul_of_nonneg_right this (by norm_num)

/-- C3, witness: the amended statement at a concrete desk, applying three
increments to "Service Desk 2" (load 8, capacity 20). -/
theorem incremento_decisor_testigo :
    (incrementar_carga^[3] ⟨"Service Desk 2", "N1", "Soporte general", 20, 8⟩).actual
      = min (8 + 3) 20 :=
  (incremento_decisor_acotado ⟨"Service Desk 2", "N1", "Soporte general", 20, 8⟩ 3
    (by decide)).1

/-! ### Claim C6 -/

/-- C6: a desk is available exactly when its utilization `load / max * 100` is
strictly below 90; at exactly `load / max = 9/10` the desk is unavailable; the
utilization computation raises a division error exactly when the capacity is
zero. Both the orchestrator's `_disponible` and the capacity agent's
`calcular_capacidad_mesa` are covered. -/
theorem umbral_disponibilidad (m : Mesa) (mc : MesaCap) :
    (0 < m.max → (disponible m = true ↔ porcentaje m < 90)) ∧
    (((m.actual : ℚ) / (m.max : ℚ)) = 9/10 → disponible m = false) ∧
    (porcentajeChecked m = none ↔ m.max = 0) ∧
    (0 < mc.max_tickets → (cap_disponible mc = true ↔ cap_porcentaje mc < 90)) ∧
    (((mc.carga_actual : ℚ) / (mc.max_tickets : ℚ)) = 9/10 → cap_disponible mc = false) := by
  refine ⟨?_, ?_, ?_, ?_, ?_⟩
  · intro _
    simp [disponible]
  · intro h
    simp only [disponible, porcentaje, h]
    norm_num
  · by_cases hz : m.max = 0 <;> simp [porcentajeChecked, hz]
  · intro _
    simp [cap_disponible]
  · intro h
    simp only [cap_disponible, cap_porcentaje, h]
    norm_num

/-- C6, witness: "Service Desk 1" at load 18 of 20 sits exactly on the 90%
boundary and is unavailable, and its checked utilization is defined. -/
theorem umbral_disponibilidad_testigo :
    disponible ⟨"Service Desk 1", "N1", "Soporte general", 20, 18⟩ = false ∧
    (porcentajeChecked ⟨"Service Desk 1", "N1", "Soporte general", 20, 18⟩ = none ↔
      (20 : ℕ) = 0) :=
  ⟨(umbral_disponibilidad ⟨"Service Desk 1", "N1", "Soporte general", 20, 18⟩
      ⟨"Service Desk 1", "N1 - Soporte General", 20, 12⟩).2.1 (by norm_num),
   (umbral_disponibilidad ⟨"Service Desk 1", "N1", "Soporte general", 20, 18⟩
      ⟨"Service Desk 1", "N1 - Soporte General", 20, 12⟩).2.2.1⟩

theorem mesaDe_asignar {s : Estado} {cola : Cola} {sol : Solicitud} {ts : String}
    {mf nf : String} {ec : Bool} {rz : String}
    (hdec : decidir s sol = .ok (mf, nf, ec, rz)) :
    mesaDe (asignar s cola sol ts) = some mf := by
  unfold mesaDe asignar
  rw [hdec]
  rfl

theorem nivelDe_asignar {s : Estado} {cola : Cola} {sol : Solicitud} {ts : String}
    {mf nf : String} {ec : Bool} {rz : String}
    (hdec : decidir s sol = .ok (mf, nf, ec, rz)) :
    nivelDe (asignar s cola sol ts) = some nf := by
  unfold nivelDe asignar
  rw [hdec]
  rfl

theorem enColaDe_asignar {s : Estado} {cola : Cola} {sol : Solicitud} {ts : String}
    {mf nf : String} {ec : Bool} {rz : String}
    (hdec : decidir s sol = .ok (mf, nf, ec, rz)) :
    enColaDe (asignar s cola sol ts) = some ec := by
  unfold enColaDe asignar
  rw [hdec]
  rfl

theorem estadoDe_asignar {s : Estado} {cola : Cola} {sol : Solicitud} {ts : String}
    {mf nf : String} {ec : Bool} {rz : String}
    (hdec : decidir s sol = .ok (mf, nf, ec, rz)) :
    estadoDe (asignar s cola sol ts)
      = some (if (lookupMesa s mf).isSome && !ec then
                s.map (fun m => if m.nombre == mf then incrementar_carga m else m)
              else s) := by
  unfold estadoDe asignar
  rw [hdec]
  rfl

theorem colaDe_asignar {s : Estado} {cola : Cola} {sol : Solicitud} {ts : String}
    {mf nf : String} {ec : Bool} {rz : String}
    (hdec : decidir s sol = .ok (mf, nf, ec, rz)) :
    colaDe (asignar s cola sol ts)
      = some (if ec then cola ++ [⟨sol.ticket_id, mf, ts⟩] else cola) := by
  unfold colaDe asignar
  rw [hdec]
  rfl

theorem decidir_no_historico {s : Estado} {sol : Solicitud}
    (hcond : (verdadero sol.via_historico && truthyStr sol.mesa_historico) = false) :
    decidir s sol =
      (asignar_mesa s (pyOrStr sol.nivel_recomendado "N1") (pyOrStr sol.complejidad "media")
          sol.tipo_atencion_sd (pyOrStr sol.producto "") (verdadero sol.via_historico)).map
        (fun d => (d.mesa, d.nivel, d.en_cola, d.razon)) := by
  unfold decidir
  rw [hcond]
  simp

theorem asignar_mesa_historico (s : Estado) (nr c t p : String) :
    asignar_mesa s nr c t p true =
      (match buscar_en_niveles s ["N1", "N2"] with
       | some (nivel, m) =>
         .ok ⟨m.nombre, nivel, false, "Histórico detectado → forzado a " ++ nivel⟩
       | none =>
         .ok ⟨"Service Desk 1", "N1", true, "Histórico: N1/N2 saturados → cola"⟩) :=
  rfl

theorem asignar_mesa_no_historico (s : Estado) (nr c t p : String) :
    asignar_mesa s nr c t p false =
      (match intento_n3 s nr c t p with
       | .error e => .error e
       | .ok (some d) => .ok d
       | .ok none => caso_normal s nr c) :=
  rfl

theorem intento_n3_disponible {s : Estado} {tipo prod nombre : String} {m : Mesa}
    (hr : mesa_por_producto prod tipo = some nombre)
    (hl : lookupMesa s nombre = some m) (hd : disponible m = true) :
    intento_n3 s "N3" "muy_alta" tipo prod =
      .ok (some ⟨nombre, "N3", false, "Complejidad MUY_ALTA → N3 (" ++ nombre ++ ")"⟩) := by
  unfold intento_n3
  simp [hr, hl, hd]

theorem intento_n3_saturada {s : Estado} {tipo prod : String}
    (hno : mesa_por_producto prod tipo = none ∨
      ∃ nombre m, mesa_por_producto prod tipo = some nombre ∧
        lookupMesa s nombre = some m ∧ disponible m = false) :
    intento_n3 s "N3" "muy_alta" tipo prod = .ok (intento_n2 s) := by
  unfold intento_n3
  rcases hno with hr | ⟨nombre, m, hr, hl, hd⟩
  · simp [hr]
  · simp [hr, hl, hd]

theorem intento_n3_no_aplica {s : Estado} {nr c tipo prod : String}
    (h : (nr == "N3" && c == "muy_alta") = false) :
    intento_n3 s nr c tipo prod = .ok none := by
  unfold intento_n3
  simp [h]

theorem intento_n2_encontrada {s : Estado} {m2 : Mesa}
    (h : (candidatas_por_nivel s "N2").find? (fun x => disponible x) = some m2) :
    intento_n2 s = some ⟨m2.nombre, "N2", false, "N3 saturada → escalado a N2"⟩ := by
  unfold intento_n2
  rw [h]

theorem intento_n2_vacia {s : Estado}
    (h : ∀ m ∈ s, m.nivel = "N2" → disponible m = false) :
    intento_n2 s = none := by
  unfold intento_n2
  rw [find_none_de_saturacion h]

theorem buscar_niveles_none {s : Estado} {niveles : List String}
    (h : ∀ n ∈ niveles, (candidatas_por_nivel s n).find? (fun x => disponible x) = none) :
    buscar_en_niveles s niveles = none := by
  induction niveles with
  | nil => rfl
  | cons hd tl ih =>
    unfold buscar_en_niveles
    rw [h hd (List.mem_cons_self hd tl)]
    exact ih (fun n hn => h n (List.mem_cons_of_mem hd hn))

/-! ### Claim C4 -/

/-- C4: with recommended tier N3 and complexity muy_alta (and no historical
match), the product-rule desk is assigned at tier N3 with `en_cola = false`
when it is available; when the rule matches a saturated desk or matches
nothing, the decision falls through to tier N2, taking the first available
desk in ascending-utilization order — which is the least-loaded available N2
desk — with `en_cola = false`. -/
theorem especialista_muy_alta_cascada (s : Estado) (tipo prod nombre : String) (m : Mesa) :
    (mesa_por_producto prod tipo = some nombre → lookupMesa s nombre = some m →
      disponible m = true →
      asignar_mesa s "N3" "muy_alta" tipo prod false =
        .ok ⟨nombre, "N3", false, "Complejidad MUY_ALTA → N3 (" ++ nombre ++ ")"⟩) ∧
    ((mesa_por_producto prod tipo = none ∨
        (mesa_por_producto prod tipo = some nombre ∧ lookupMesa s nombre = some m ∧
          disponible m = false)) →
      ∀ m2 : Mesa, (candidatas_por_nivel s "N2").find? (fun x => disponible x) = some m2 →
        asignar_mesa s "N3" "muy_alta" tipo prod false =
          .ok ⟨m2.nombre, "N2", false, "N3 saturada → escalado a N2"⟩ ∧
        m2 ∈ s ∧ m2.nivel = "N2" ∧ disponible m2 = true ∧
        ∀ m3 ∈ s, m3.nivel = "N2" → disponible m3 = true →
          porcentaje m2 ≤ porcentaje m3) := by
  constructor
  · intro hr hl hd
    rw [asignar_mesa_no_historico, intento_n3_disponible hr hl hd]
  · intro hno m2 hfind
    have hsat : intento_n3 s "N3" "muy_alta" tipo prod = .ok (intento_n2 s) := by
      apply intento_n3_saturada
      rcases hno with h | ⟨h1, h2, h3⟩
      · exact Or.inl h
      · exact Or.inr ⟨nombre, m, h1, h2, h3⟩
    obtain ⟨hm2s, hm2n, hm2d, hmin⟩ := find_disponible_minimal hfind
    refine ⟨?_, hm2s, hm2n, hm2d, hmin⟩
    rw [asignar_mesa_no_historico, hsat, intento_n2_encontrada hfind]

unseal Rat.mul Rat.inv Rat.add Rat.sub in
/-- C4, witness: the spec's "critical SCTR ticket" scenario at the initial
registry — product "SCTR", SCTR desk at 75%, assigned at N3. -/
theorem especialista_muy_alta_testigo :
    asignar_mesa ESTADO_MESAS "N3" "muy_alta" "" "SCTR" false =
      .ok ⟨"Squad - Mesa SCTR", "N3", false,
           "Complejidad MUY_ALTA → N3 (" ++ "Squad - Mesa SCTR" ++ ")"⟩ :=
  (especialista_muy_alta_cascada ESTADO_MESAS "" "SCTR" "Squad - Mesa SCTR"
      ⟨"Squad - Mesa SCTR", "N3", "SCTR", 8, 6⟩).1
    (by decide) (by decide) (by decide)

/-! ### Claim C5 -/

/-- C5: when no eligible desk is available in the rule cascade — every N1 and
N2 desk saturated, and any product-rule desk saturated as well — the endpoint
still succeeds: it force-assigns the ticket to the least-loaded N1 desk (the
head of the ascending-utilization candidate list), marks it queued, leaves the
registry untouched, and appends exactly one entry (ticket, target desk,
timestamp) to the waiting queue, unconditionally and with no deduplication. -/
theorem saturacion_global_encola
    (s : Estado) (cola : Cola) (sol : Solicitud) (ts : String) (m0 : Mesa) (rest : List Mesa)
    (hv : verdadero sol.via_historico = false)
    (hsat : ∀ m ∈ s, m.nivel = "N1" ∨ m.nivel = "N2" → disponible m = false)
    (hprod : ∀ nombre, mesa_por_producto (pyOrStr sol.producto "") sol.tipo_atencion_sd
        = some nombre → ∃ m, lookupMesa s nombre = some m ∧ disponible m = false)
    (hc : candidatas_por_nivel s "N1" = m0 :: rest) :
    mesaDe (asignar s cola sol ts) = some m0.nombre ∧
    nivelDe (asignar s cola sol ts) = some "N1" ∧
    enColaDe (asignar s cola sol ts) = some true ∧
    estadoDe (asignar s cola sol ts) = some s ∧
    colaDe (asignar s cola sol ts) = some (cola ++ [⟨sol.ticket_id, m0.nombre, ts⟩]) ∧
    m0 ∈ s ∧ m0.nivel = "N1" ∧
    (∀ m' ∈ s, m'.nivel = "N1" → porcentaje m0 ≤ porcentaje m') := by
  have hn1 : ∀ m ∈ s, m.nivel = "N1" → disponible m = false :=
    fun m hm h1 => hsat m hm (Or.inl h1)
  have hn2 : ∀ m ∈ s, m.nivel = "N2" → disponible m = false :=
    fun m hm h2 => hsat m hm (Or.inr h2)
  have hin3 : intento_n3 s (pyOrStr sol.nivel_recomendado "N1")
      (pyOrStr sol.complejidad "media") sol.tipo_atencion_sd (pyOrStr sol.producto "")
      = .ok none := by
    unfold intento_n3
    by_cases hcond : (pyOrStr sol.nivel_recomendado "N1" == "N3"
        && pyOrStr sol.complejidad "media" == "muy_alta") = true
    · rw [if_pos hcond]
      cases hr : mesa_por_producto (pyOrStr sol.producto "") sol.tipo_atencion_sd with
      | none => simp [intento_n2_vacia hn2]
      | some nombre =>
        obtain ⟨m, hl, hd⟩ := hprod nombre hr
        simp [hl, hd, intento_n2_vacia hn2]
    · rw [if_neg hcond]
  have hbuscar : buscar_en_niveles s (niveles_candidatos (pyOrStr sol.nivel_recomendado "N1"))
      = none := by
    apply buscar_niveles_none
    intro n hn
    have : n = "N1" ∨ n = "N2" := by
      unfold niveles_candidatos at hn
      by_cases hcase : (pyOrStr sol.nivel_recomendado "N1" == "N1"
          || pyOrStr sol.nivel_recomendado "N1" == "baja"
          || pyOrStr sol.nivel_recomendado "N1" == "media") = true
      · rw [if_pos hcase] at hn
        simp at hn
        exact Or.inl hn
      · rw [if_neg hcase] at hn
        simp at hn
        rcases hn with h | h
        · exact Or.inr h
        · exact Or.inl h
    rcases this with rfl | rfl
    · exact find_none_de_saturacion hn1
    · exact find_none_de_saturacion hn2
  have hcn : caso_normal s (pyOrStr sol.nivel_recomendado "N1")
      (pyOrStr sol.complejidad "media")
      = .ok ⟨m0.nombre, "N1", true, "Todas las mesas N1/N2 saturadas → en cola de espera"⟩ := by
    unfold caso_normal
    rw [hbuscar, hc]
  have hdec : decidir s sol
      = .ok (m0.nombre, "N1", true, "Todas las mesas N1/N2 saturadas → en cola de espera") := by
    rw [decidir_no_historico (by rw [hv, Bool.false_and]), hv,
      asignar_mesa_no_historico, hin3, hcn]
    rfl
  obtain ⟨hm0s, hm0n, hmin⟩ := head_candidatas_minimal hc
  refine ⟨mesaDe_asignar hdec, nivelDe_asignar hdec, enColaDe_asignar hdec, ?_, ?_,
    hm0s, hm0n, hmin⟩
  · rw [estadoDe_asignar hdec]
    simp
  · rw [colaDe_asignar hdec]
    simp

unseal Rat.mul Rat.inv Rat.add Rat.sub in
/-- C5, witness: a three-desk registry with both N1 desks and the single N2
desk at or above 90%; the request is queued on the less-loaded N1 desk and the
queue gains exactly one entry. -/
theorem saturacion_global_testigo :
    mesaDe (asignar
        [⟨"Service Desk 1", "N1", "Soporte general", 10, 10⟩,
         ⟨"Service Desk 2", "N1", "Soporte general", 10, 9⟩,
         ⟨"Squad - Mesa Ongoing", "N2", "Escalamiento", 10, 10⟩] []
        { ticket_id := "T-005" } "ts") = some "Service Desk 2" ∧
    colaDe (asignar
        [⟨"Service Desk 1", "N1", "Soporte general", 10, 10⟩,
         ⟨"Service Desk 2", "N1", "Soporte general", 10, 9⟩,
         ⟨"Squad - Mesa Ongoing", "N2", "Escalamiento", 10, 10⟩] []
        { ticket_id := "T-005" } "ts")
      = some [⟨"T-005", "Service Desk 2", "ts"⟩] := by
  have h := saturacion_global_encola
    [⟨"Service Desk 1", "N1", "Soporte general", 10, 10⟩,
     ⟨"Service Desk 2", "N1", "Soporte general", 10, 9⟩,
     ⟨"Squad - Mesa Ongoing", "N2", "Escalamiento", 10, 10⟩] []
    { ticket_id := "T-005" } "ts"
    ⟨"Service Desk 2", "N1", "Soporte general", 10, 9⟩
    [⟨"Service Desk 1", "N1", "Soporte general", 10, 10⟩]
    (by decide) (by decide)
    (by
      intro nombre hr
      rw [show mesa_por_producto (pyOrStr ({ ticket_id := "T-005" } : Solicitud).producto "")
            ({ ticket_id := "T-005" } : Solicitud).tipo_atencion_sd = none from by decide] at hr
      exact Option.noConfusion hr)
    (by decide)
  exact ⟨h.1, h.2.2.2.2.1⟩

/-! ### Claim C1 -/

/-- C1, counterexample: a request with `via_historico = true` whose
`mesa_historico` names the registered Specialist desk "Squad - Mesa SOAT" is
routed by the `/asignar` endpoint directly to that desk at tier N3: the
endpoint's historical shortcut bypasses the N1/N2 restriction of
`asignar_mesa`. -/
theorem historico_directo_asigna_n3 :
    verdadero ({ ticket_id := "T-001", via_historico := some true,
                 mesa_historico := some "Squad - Mesa SOAT" } : Solicitud).via_historico
      = true ∧
    nivelDe (asignar ESTADO_MESAS []
        { ticket_id := "T-001", via_historico := some true,
          mesa_historico := some "Squad - Mesa SOAT" } "ts") = some "N3" := by
  decide

/-- C1, amended: for requests with `via_historico = true` and no truthy
`mesa_historico`, the assigned tier is N1 or N2, never N3; when
`mesa_historico` names a registered desk, the request goes directly to that
desk with the desk's own tier, which may be N3 (see the counterexample). -/
theorem historico_sin_mesa_sugerida_fuerza_n1_n2
    (s : Estado) (cola : Cola) (sol : Solicitud) (ts n : String)
    (hv : verdadero sol.via_historico = true)
    (hm : truthyStr sol.mesa_historico = false)
    (h : nivelDe (asignar s cola sol ts) = some n) :
    n = "N1" ∨ n = "N2" := by
  have hdec := @decidir_no_historico s sol (by rw [hm, Bool.and_false])
  rw [hv, asignar_mesa_historico] at hdec
  cases hb : buscar_en_niveles s ["N1", "N2"] with
  | none =>
    rw [hb] at hdec
    have := @nivelDe_asignar s cola sol ts _ _ _ _ (by simpa [Except.map] using hdec)
    rw [this] at h
    exact Or.inl (Option.some.injEq _ _ ▸ h).symm
  | some par =>
    obtain ⟨nivel, m⟩ := par
    rw [hb] at hdec
    have := @nivelDe_asignar s cola sol ts _ _ _ _ (by simpa [Except.map] using hdec)
    rw [this] at h
    have hn : nivel = n := by simpa using h
    have hmem : nivel ∈ ["N1", "N2"] := (buscar_mem hb).1
    subst hn
    rcases List.mem_cons.mp hmem with rfl | hmem
    · exact Or.inl rfl
    · rcases List.mem_cons.mp hmem with rfl | hmem
      · exact Or.inr rfl
      · simp at hmem

unseal Rat.mul Rat.inv Rat.add Rat.sub in
/-- C1, witness: the amended invariant at the initial registry, for a
historical request with no suggested desk (it lands on the least-loaded N1
desk). -/
theorem historico_sin_mesa_sugerida_testigo :
    nivelDe (asignar ESTADO_MESAS []
        { ticket_id := "T-002", via_historico := some true } "ts") = some "N1" ∧
    ("N1" = "N1" ∨ "N1" = "N2") :=
  ⟨by decide,
   historico_sin_mesa_sugerida_fuerza_n1_n2 ESTADO_MESAS []
     { ticket_id := "T-002", via_historico := some true } "ts" "N1"
     (by decide) (by decide) (by decide)⟩

/-! ### Claim C10 -/

/-- C10: whenever the `/asignar` endpoint returns a queued decision, the
registry state is left unchanged — the clamped load increment runs only when
`en_cola` is false, so a queued ticket never consumes a capacity slot. -/
theorem encolado_no_incrementa_carga (s : Estado) (cola : Cola) (sol : Solicitud) (ts : String)
    (h : enColaDe (asignar s cola sol ts) = some true) :
    estadoDe (asignar s cola sol ts) = some s := by
  cases hdec : decidir s sol with
  | error e =>
    unfold enColaDe asignar at h
    rw [hdec] at h
    simp [Except.toOption] at h
  | ok quad =>
    obtain ⟨mf, nf, ec, rz⟩ := quad
    have hec : ec = true := by
      have := @enColaDe_asignar s cola sol ts _ _ _ _ hdec
      rw [this] at h
      simpa using h
    subst hec
    rw [@estadoDe_asignar s cola sol ts _ _ _ _ hdec]
    simp

unseal Rat.mul Rat.inv Rat.add Rat.sub in
/-- C10, witness: a single saturated N1 desk; the request is queued and the
state is returned unchanged. -/
theorem encolado_testigo :
    enColaDe (asignar [⟨"Service Desk 1", "N1", "Soporte general", 10, 10⟩] []
        { ticket_id := "T-010" } "ts") = some true ∧
    estadoDe (asignar [⟨"Service Desk 1", "N1", "Soporte general", 10, 10⟩] []
        { ticket_id := "T-010" } "ts")
      = some [⟨"Service Desk 1", "N1", "Soporte general", 10, 10⟩] :=
  ⟨by decide,
   encolado_no_incrementa_carga [⟨"Service Desk 1", "N1", "Soporte general", 10, 10⟩] []
     { ticket_id := "T-010" } "ts" (by decide)⟩


/-! ### Claim C9 -/

/-- C9: in the normal case (no historical match, and not the N3+muy_alta
specialist branch) the candidate tier list is exactly `["N1"]` for recommended
tier N1/baja/media and `["N2", "N1"]` otherwise; each tier's candidate list is
the registry filtered to that tier, sorted ascending by utilization with ties
kept in registry insertion order (a stable sort); and the walk assigns the
first available desk with `en_cola = false` — a desk of minimal utilization
among the available desks of its tier. -/
theorem caso_normal_orden_y_primera_disponible
    (s : Estado) (nr compl tipo prod t : String) :
    ((nr = "N1" ∨ nr = "baja" ∨ nr = "media") → niveles_candidatos nr = ["N1"]) ∧
    (¬(nr = "N1" ∨ nr = "baja" ∨ nr = "media") → niveles_candidatos nr = ["N2", "N1"]) ∧
    List.Sorted cargaMenor (candidatas_por_nivel s t) ∧
    (candidatas_por_nivel s t).Perm (s.filter (fun m => m.nivel == t)) ∧
    (∀ a b : Mesa, List.Sublist [a, b] (s.filter (fun m => m.nivel == t)) →
      porcentaje a = porcentaje b → List.Sublist [a, b] (candidatas_por_nivel s t)) ∧
    (¬(nr = "N3" ∧ compl = "muy_alta") →
      ∀ n m, buscar_en_niveles s (niveles_candidatos nr) = some (n, m) →
        (asignar_mesa s nr compl tipo prod false).toOption.map
            (fun d => (d.mesa, d.nivel, d.en_cola)) = some (m.nombre, n, false) ∧
        m ∈ s ∧ m.nivel = n ∧ disponible m = true ∧
        ∀ mm ∈ s, mm.nivel = n → disponible mm = true → porcentaje m ≤ porcentaje mm) := by
  refine ⟨?_, ?_, sorted_candidatas s t, List.perm_insertionSort _ _, ?_, ?_⟩
  · intro h
    unfold niveles_candidatos
    rcases h with rfl | rfl | rfl <;> rfl
  · intro h
    have hb : (nr == "N1" || nr == "baja" || nr == "media") = false := by
      cases hcase : (nr == "N1" || nr == "baja" || nr == "media") with
      | false => rfl
      | true =>
        simp only [Bool.or_eq_true, beq_iff_eq] at hcase
        exact absurd (by tauto) h
    unfold niveles_candidatos
    simp [hb]
  · intro a b hsub heq
    exact List.sublist_insertionSort (List.pairwise_pair.mpr (le_of_eq heq)) hsub
  · intro hn3 n m hb2
    have hbool : (nr == "N3" && compl == "muy_alta") = false := by
      cases hcase : (nr == "N3" && compl == "muy_alta") with
      | false => rfl
      | true =>
        simp only [Bool.and_eq_true, beq_iff_eq] at hcase
        exact absurd hcase hn3
    obtain ⟨hniv, hfind⟩ := buscar_mem hb2
    obtain ⟨hms, hmn, hmd, hmin⟩ := find_disponible_minimal hfind
    rw [asignar_mesa_no_historico, intento_n3_no_aplica hbool]
    have hcn : caso_normal s nr compl =
        .ok ⟨m.nombre, n, false,
             "Complejidad " ++ compl ++ " → " ++ n ++ " (" ++ m.nombre ++ ", carga "
               ++ toString (round1 (porcentaje m)) ++ "%)"⟩ := by
      unfold caso_normal
      rw [hb2]
    rw [hcn]
    exact ⟨rfl, hms, hmn, hmd, hmin⟩

unseal Rat.mul Rat.inv Rat.add Rat.sub in
/-- C9, witness: recommended tier "alta" at the initial registry walks
`["N2", "N1"]` and takes the single available N2 desk with `en_cola = false`. -/
theorem caso_normal_testigo :
    niveles_candidatos "alta" = ["N2", "N1"] ∧
    (asignar_mesa ESTADO_MESAS "alta" "alta" "" "" false).toOption.map
        (fun d => (d.mesa, d.nivel, d.en_cola))
      = some ("Squad - Mesa Ongoing", "N2", false) :=
  ⟨(caso_normal_orden_y_primera_disponible ESTADO_MESAS "alta" "alta" "" "" "N1").2.1
     (by decide),
   ((caso_normal_orden_y_primera_disponible ESTADO_MESAS "alta" "alta" "" "" "N1").2.2.2.2.2
     (by decide) "N2" ⟨"Squad - Mesa Ongoing", "N2", "Escalamiento", 15, 10⟩ (by decide)).1⟩

/-! ### Claim C8 -/

theorem intento_n2_razon {s : Estado} {d0 : Decision} (h : intento_n2 s = some d0) :
    d0.razon ≠ "" := by
  unfold intento_n2 at h
  cases hf : (candidatas_por_nivel s "N2").find? (fun x => disponible x) with
  | none => rw [hf] at h; simp at h
  | some m =>
    rw [hf] at h
    have hd : (⟨m.nombre, "N2", false, "N3 saturada → escalado a N2"⟩ : Decision) = d0 := by
      simpa using h
    rw [← hd]
    show ("N3 saturada → escalado a N2" : String) ≠ ""
    decide

theorem intento_n3_razon {s : Estado} {nr c t p : String} {d0 : Decision}
    (h : intento_n3 s nr c t p = .ok (some d0)) : d0.razon ≠ "" := by
  unfold intento_n3 at h
  by_cases hcond : (nr == "N3" && c == "muy_alta") = true
  · rw [if_pos hcond] at h
    cases hr : mesa_por_producto p t with
    | none =>
      rw [hr] at h
      exact intento_n2_razon (by simpa using h)
    | some nombre =>
      simp only [hr] at h
      cases hl : lookupMesa s nombre with
      | none => simp only [hl] at h; simp at h
      | some m =>
        simp only [hl] at h
        by_cases hdm : disponible m = true
        · rw [if_pos hdm] at h
          have hd : (⟨nombre, "N3", false,
              "Complejidad MUY_ALTA → N3 (" ++ nombre ++ ")"⟩ : Decision) = d0 := by
            simpa using h
          rw [← hd]
          show ("Complejidad MUY_ALTA → N3 (" ++ nombre) ++ ")" ≠ ""
          exact append_ne_vacia _ _ (append_ne_vacia _ _ (by decide))
        · rw [if_neg hdm] at h
          exact intento_n2_razon (by simpa using h)
  · rw [if_neg hcond] at h
    simp at h

theorem caso_normal_razon {s : Estado} {nr c : String} {d : Decision}
    (h : caso_normal s nr c = .ok d) : d.razon ≠ "" := by
  unfold caso_normal at h
  cases hb : buscar_en_niveles s (niveles_candidatos nr) with
  | some par =>
    obtain ⟨n, m⟩ := par
    rw [hb] at h
    have hd : (⟨m.nombre, n, false,
        "Complejidad " ++ c ++ " → " ++ n ++ " (" ++ m.nombre ++ ", carga "
          ++ toString (round1 (porcentaje m)) ++ "%)"⟩ : Decision) = d := by
      simpa using h
    rw [← hd]
    repeat (first | exact (by decide : ("Complejidad " : String) ≠ "") | apply append_ne_vacia)
  | none =>
    rw [hb] at h
    cases hc : candidatas_por_nivel s "N1" with
    | nil => rw [hc] at h; simp at h
    | cons m rest =>
      rw [hc] at h
      have hd : (⟨m.nombre, "N1", true,
          "Todas las mesas N1/N2 saturadas → en cola de espera"⟩ : Decision) = d := by
        simpa using h
      rw [← hd]
      show ("Todas las mesas N1/N2 saturadas → en cola de espera" : String) ≠ ""
      decide

theorem razon_no_vacia {s : Estado} {nr c t p : String} {v : Bool} {d : Decision}
    (h : asignar_mesa s nr c t p v = .ok d) : d.razon ≠ "" := by
  cases v with
  | true =>
    rw [asignar_mesa_historico] at h
    cases hb : buscar_en_niveles s ["N1", "N2"] with
    | some par =>
      obtain ⟨nivel, m⟩ := par
      rw [hb] at h
      have hd : (⟨m.nombre, nivel, false,
          "Histórico detectado → forzado a " ++ nivel⟩ : Decision) = d := by
        simpa using h
      rw [← hd]
      exact append_ne_vacia _ _ (by decide)
    | none =>
      rw [hb] at h
      have hd : (⟨"Service Desk 1", "N1", true,
          "Histórico: N1/N2 saturados → cola"⟩ : Decision) = d := by
        simpa using h
      rw [← hd]
      decide
  | false =>
    rw [asignar_mesa_no_historico] at h
    cases hi : intento_n3 s nr c t p with
    | error e => rw [hi] at h; simp at h
    | ok od =>
      cases od with
      | some d0 =>
        rw [hi] at h
        have hd : d0 = d := by simpa using h
        exact hd ▸ intento_n3_razon hi
      | none =>
        rw [hi] at h
        exact caso_normal_razon h

theorem sep_fusion (x : String) : ")" ++ (" | " ++ x) = ") | " ++ x := by
  rw [← String.append_assoc]
  rfl

/-- C8: the pipeline's reasoning trace is the concatenation, in fixed order and
joined by the fixed separator " | ", of the historical segment, the estimated
hours/category segment, the complexity segment, and the routing reasoning; and
every `asignar_mesa` branch produces a non-empty reason string. -/
theorem traza_cuatro_segmentos (tid : String) (hist : Except String HistResp)
    (est : Except String EstResp) (comp : Except String CompResp)
    (orq : Except String OrqResp) (ts : String)
    (s : Estado) (nr c t p : String) (v : Bool) (d : Decision) :
    (ejecutar_pipeline tid hist est comp orq ts).razonamiento =
      seg_historico (hist_razon_de hist) ++ " | " ++
        seg_estimado (tiempo_de est) (categoria_de est) ++ " | " ++
        seg_complejidad (complejidad_de comp) (score_de comp) ++ " | " ++
        (orq_de orq).razonamiento ∧
    (asignar_mesa s nr c t p v = .ok d → d.razon ≠ "") := by
  constructor
  · simp only [ejecutar_pipeline, seg_historico, seg_estimado, seg_complejidad,
      String.append_assoc, sep_fusion]
  · exact razon_no_vacia

theorem except_ok_de_toOption {e : Except String Decision} {d : Decision}
    (h : e.toOption = some d) : e = .ok d := by
  cases e with
  | ok x => simpa [Except.toOption] using h
  | error er => simp [Except.toOption] at h

unseal Rat.mul Rat.inv Rat.add Rat.sub in
/-- C8, witness: the normal-case branch at the initial registry produces its
(non-empty) reason string. -/
theorem traza_testigo :
    (⟨"Service Desk 2", "N1", false,
      "Complejidad baja → N1 (Service Desk 2, carga 40%)"⟩ : Decision).razon ≠ "" :=
  (traza_cuatro_segmentos "T-008" (.error "x") (.error "x") (.error "x") (.error "x") "ts"
    ESTADO_MESAS "N1" "baja" "" "" false
    ⟨"Service Desk 2", "N1", false,
     "Complejidad baja → N1 (Service Desk 2, carga 40%)"⟩).2
    (except_ok_de_toOption (by decide))

/-! ### Claim C7 -/

set_option maxHeartbeats 1600000 in
/-- C7, counterexample: with the Estimator and Complexity collaborators
failing, the pipeline substitutes the defaults, but the substitution messages
("Estimador no disponible", "Complejidad no disponible") appear nowhere in the
returned reasoning trace — they are stored in variables the source never reads
again — so the trace does not record those substitutions. -/
theorem traza_sin_fallo_estimador :
    (ejecutar_pipeline "T-007" (.ok ⟨false, none, none, "sin antecedentes previos", none⟩)
        (.error "timeout") (.error "conexion rechazada")
        (.ok ⟨"Service Desk 1", "N1", false, "razon de ruteo"⟩) "ts").tiempo_estimado_horas
      = none ∧
    (ejecutar_pipeline "T-007" (.ok ⟨false, none, none, "sin antecedentes previos", none⟩)
        (.error "timeout") (.error "conexion rechazada")
        (.ok ⟨"Service Desk 1", "N1", false, "razon de ruteo"⟩) "ts").categoria_tiempo = "" ∧
    (ejecutar_pipeline "T-007" (.ok ⟨false, none, none, "sin antecedentes previos", none⟩)
        (.error "timeout") (.error "conexion rechazada")
        (.ok ⟨"Service Desk 1", "N1", false, "razon de ruteo"⟩) "ts").complejidad = "media" ∧
    (ejecutar_pipeline "T-007" (.ok ⟨false, none, none, "sin antecedentes previos", none⟩)
        (.error "timeout") (.error "conexion rechazada")
        (.ok ⟨"Service Desk 1", "N1", false, "razon de ruteo"⟩) "ts").score_complejidad = 50 ∧
    contiene (ejecutar_pipeline "T-007"
        (.ok ⟨false, none, none, "sin antecedentes previos", none⟩)
        (.error "timeout") (.error "conexion rechazada")
        (.ok ⟨"Service Desk 1", "N1", false, "razon de ruteo"⟩) "ts").razonamiento
      "Estimador no disponible" = false ∧
    contiene (ejecutar_pipeline "T-007"
        (.ok ⟨false, none, none, "sin antecedentes previos", none⟩)
        (.error "timeout") (.error "conexion rechazada")
        (.ok ⟨"Service Desk 1", "N1", false, "razon de ruteo"⟩) "ts").razonamiento
      "Complejidad no disponible" = false := by
  decide

theorem empiezaCon_append_derecha {n l : List Char} (h : empiezaCon n l = true)
    (r : List Char) : empiezaCon n (l ++ r) = true := by
  induction n generalizing l with
  | nil => rfl
  | cons c cs ih =>
    cases l with
    | nil => simp [empiezaCon] at h
    | cons d ds =>
      simp only [empiezaCon, Bool.and_eq_true] at h
      simp [empiezaCon, h.1, ih h.2]

theorem apareceEn_append_derecha {n l : List Char} (h : apareceEn n l = true)
    (r : List Char) : apareceEn n (l ++ r) = true := by
  induction l with
  | nil =>
    cases n with
    | nil => exact apareceEn_de_empiezaCon (by cases r <;> rfl)
    | cons c cs => simp [apareceEn] at h
  | cons c cs ih =>
    simp only [apareceEn, Bool.or_eq_true] at h
    rcases h with h | h
    · have hx := empiezaCon_append_derecha h r
      rw [List.cons_append] at hx
      simp [apareceEn, hx]
    · simp [apareceEn, ih h]

theorem contiene_append_derecha {x b : String} (h : contiene x b = true) (y : String) :
    contiene (x ++ y) b = true := by
  unfold contiene at h ⊢
  have : (x ++ y).toList = x.toList ++ y.toList := by simp [String.toList]
  rw [this]
  exact apareceEn_append_derecha h _

theorem contiene_final (a b : String) : contiene (a ++ b) b = true := by
  unfold contiene
  have : (a ++ b).toList = a.toList ++ (b.toList ++ []) := by simp [String.toList]
  rw [this]
  exact apareceEn_en_medio a.toList b.toList []

/-- C7, amended: when the Historical, Estimator and Complexity collaborators
all fail, the pipeline still returns a complete result with the documented
defaults substituted (Historical: found=false; Estimator: hours=None,
category=""; Complexity: category="media", score=50.0, recommended tier N1);
the Historical failure cause is recorded verbatim in the reasoning trace, while
the Estimator and Complexity failure causes are captured only in fields
(`factores_aplicados`, `recomendacion`) that never reach the trace (see the
counterexample). -/
theorem defaults_colaboradores (tid e1 e2 e3 : String) (orq : Except String OrqResp)
    (ts : String) :
    (ejecutar_pipeline tid (.error e1) (.error e2) (.error e3) orq ts).via_historico
      = false ∧
    (ejecutar_pipeline tid (.error e1) (.error e2) (.error e3) orq ts).tiempo_estimado_horas
      = none ∧
    (ejecutar_pipeline tid (.error e1) (.error e2) (.error e3) orq ts).categoria_tiempo
      = "" ∧
    (ejecutar_pipeline tid (.error e1) (.error e2) (.error e3) orq ts).complejidad
      = "media" ∧
    (ejecutar_pipeline tid (.error e1) (.error e2) (.error e3) orq ts).score_complejidad
      = 50 ∧
    nivel_rec_de (.error e3) = "N1" ∧
    factores_de (.error e2) = ["Estimador no disponible: " ++ e2] ∧
    recom_de (.error e3) = "Complejidad no disponible: " ++ e3 ∧
    contiene (ejecutar_pipeline tid (.error e1) (.error e2) (.error e3) orq ts).razonamiento
      ("Histórico no disponible: " ++ e1) = true := by
  refine ⟨rfl, rfl, rfl, rfl, rfl, rfl, rfl, rfl, ?_⟩
  have hne : (("Histórico no disponible: " ++ e1) == "") = false := by
    apply beq_eq_false_iff_ne.mpr
    exact append_ne_vacia _ _ (by decide)
  simp only [ejecutar_pipeline, hist_razon_de, tiempo_de, categoria_de, complejidad_de,
    score_de]
  rw [hne]
  simp only [Bool.false_eq_true, if_false]
  iterate 12 apply contiene_append_derecha
  exact contiene_final "Histórico: " ("Histórico no disponible: " ++ e1)

end Protecta
